import Mathlib

/-!
Verification of the CrowdControl crowd-risk inference pipeline.

This file gives a shallow embedding, in Lean 4, of the runtime core of the
CrowdControl repository (risk evaluator, detection filtering and NMS, motion
scorer, online calibrator, async submit queue, fallback provider, frame-analysis
view) and proves or refutes the frozen specification claims about it.

Numeric values that the Python code holds in floats are modelled as exact
rationals; the arithmetic the relevant code paths perform (additions,
multiplications, divisions, min/max/clamps) is rational-valued, so the
embedding is exact on those paths.  The only real-valued steps (square root and
the exponential in the calibrator's logistic map) are modelled over the reals.
-/

namespace CrowdControl

/-- Risk level enumeration, from ai_model/inference_engine.py (class RiskLevel). -/
inductive RiskLevel where
  | normal
  | crowded
  | high_risk
  | stampede_imminent
deriving DecidableEq, Repr

/-- Crowd analysis thresholds from ai_model/config.py, CROWD_THRESHOLDS. -/
def normal_max_people : Nat := 5

/-- Crowd analysis thresholds from ai_model/config.py, CROWD_THRESHOLDS. -/
def crowded_max_people : Nat := 15

/-- Crowd analysis thresholds from ai_model/config.py, CROWD_THRESHOLDS. -/
def stampede_min_people : Nat := 20

/-- Confidence returned by StampedeInferenceEngine._determine_risk_level:
the maximum of the three class probabilities (np.max of classification_pred). -/
def result_confidence (p_normal p_crowded p_stampede : ℚ) : ℚ :=
  max p_normal (max p_crowded p_stampede)

/-- Risk-level cascade of StampedeInferenceEngine._determine_risk_level
(ai_model/inference_engine.py, lines 415-445).  Inputs are the three class
probabilities, the combined people count and the crowd density; the thresholds
come from config.py CROWD_THRESHOLDS. -/
def determine_risk_level (p_normal p_crowded p_stampede : ℚ)
    (people_count : Nat) (crowd_density : ℚ) : RiskLevel :=
  if p_stampede > 7/10 ∨ people_count > stampede_min_people ∨ crowd_density > 8/10 then
    .stampede_imminent
  else if p_stampede > 4/10 ∨ people_count > crowded_max_people ∨ crowd_density > 6/10 then
    .high_risk
  else if p_crowded > 1/2 ∨ people_count > normal_max_people ∨ crowd_density > 3/10 then
    .crowded
  else
    .normal

/-- Modelled from the spec (claim C1 wording), for comparison with
determine_risk_level: STAMPEDE_IMMINENT if p_stampede > 0.7 or
people_count > 20 or density > 0.8; otherwise HIGH_RISK if p_stampede > 0.4 or
people_count > 15 or density > 0.6; otherwise CROWDED if p_crowded > 0.5 or
people_count > 5 or density > 0.3; otherwise NORMAL. -/
def risk_level_of_claim (p_normal p_crowded p_stampede : ℚ)
    (people_count : Nat) (crowd_density : ℚ) : RiskLevel :=
  if p_stampede > 7/10 ∨ people_count > 20 ∨ crowd_density > 8/10 then
    .stampede_imminent
  else if p_stampede > 4/10 ∨ people_count > 15 ∨ crowd_density > 6/10 then
    .high_risk
  else if p_crowded > 1/2 ∨ people_count > 5 ∨ crowd_density > 3/10 then
    .crowded
  else
    .normal

/-- Crowd density from CrowdAnalyzer.calculate_crowd_density
(ai_model/inference_engine.py): frame area in pixels is converted to a rough
square-metre estimate by dividing by 100*100, and density is the people count
divided by that estimate (floored at 1), capped at 1. -/
def calculate_crowd_density (people_count : Nat) (frame_area : Nat) : ℚ :=
  min ((people_count : ℚ) / max ((frame_area : ℚ) / 10000) 1) 1

/-- Fields of the prediction dictionary that are relevant to the risk claims,
as built by ProductionStampedePredictor (production_predictor.py). -/
structure PredictionDict where
  crowd_detected : Bool
  is_stampede_risk : Bool
  risk_level : RiskLevel
  confidence_score : ℚ
  people_count : Nat
  crowd_density : ℚ
deriving DecidableEq, Repr

/-- Conversion performed by ProductionStampedePredictor._convert_result_to_dict:
crowd_detected iff the level is not NORMAL, is_stampede_risk iff the level is
HIGH_RISK or STAMPEDE_IMMINENT. -/
def convert_result_to_dict (level : RiskLevel) (confidence : ℚ)
    (people_count : Nat) (crowd_density : ℚ) : PredictionDict where
  crowd_detected := decide (level ≠ .normal)
  is_stampede_risk := decide (level = .high_risk ∨ level = .stampede_imminent)
  risk_level := level
  confidence_score := confidence
  people_count := people_count
  crowd_density := crowd_density

/-- Risk override of ProductionStampedePredictor._recalculate_risk_with_accurate_count
(production_predictor.py, lines 114-167): the risk level, crowd_detected and
is_stampede_risk fields are recomputed purely from the accurate (fused) people
count, replacing whatever the classifier-driven cascade produced; the crowd
density is recomputed from the frame dimensions. -/
def recalculate_risk_with_accurate_count (d : PredictionDict)
    (accurate_count : Nat) (h w : Nat) : PredictionDict :=
  let density := calculate_crowd_density accurate_count (h * w)
  if accurate_count = 0 then
    { d with crowd_density := density, crowd_detected := false,
             is_stampede_risk := false, risk_level := .normal }
  else if accurate_count ≤ 5 then
    { d with crowd_density := density, crowd_detected := true,
             is_stampede_risk := false, risk_level := .normal }
  else if accurate_count ≤ 15 then
    { d with crowd_density := density, crowd_detected := true,
             is_stampede_risk := false, risk_level := .crowded }
  else if accurate_count ≤ 25 then
    { d with crowd_density := density, crowd_detected := true,
             is_stampede_risk := true, risk_level := .high_risk }
  else
    { d with crowd_density := density, crowd_detected := true,
             is_stampede_risk := true, risk_level := .stampede_imminent }

/-- End-to-end risk portion of ProductionStampedePredictor.predict_crowd for a
frame of height h and width w: the inference engine evaluates the classifier
cascade (predict_frame with _determine_risk_level), the result is converted to
a dictionary, the people count is overridden with the improved detector's fused
count, and _recalculate_risk_with_accurate_count overwrites the risk fields
from that count alone. -/
def production_predict_crowd (p_normal p_crowded p_stampede : ℚ)
    (engine_people : Nat) (h w : Nat) (fused_count : Nat) : PredictionDict :=
  let density := calculate_crowd_density engine_people (h * w)
  let level := determine_risk_level p_normal p_crowded p_stampede engine_people density
  let conf := result_confidence p_normal p_crowded p_stampede
  let d := convert_result_to_dict level conf engine_people density
  recalculate_risk_with_accurate_count { d with people_count := fused_count }
    fused_count h w

/-- Alert emission from backend/api/views.py: analyze_frame creates an Alert
object exactly when the analysis reports is_stampede_risk or the temporally
smoothed risk flag is set (lines 474-487, with severity critical in the first
case and high in the second), and the upload path creates one exactly when
is_stampede_risk is set (lines 711-724, equivalent to this function with the
smoothed flag false). -/
def alert_created (is_stampede_risk smoothed_risk_flag : Bool) : Bool :=
  is_stampede_risk || smoothed_risk_flag

/-- Queue capacity of the async engine: StampedeInferenceEngine.__init__ creates
queue.Queue with maxsize 10 (ai_model/inference_engine.py, line 307). -/
def processing_queue_maxsize : Nat := 10

/-- Bounded non-blocking submit of StampedeInferenceEngine.submit_frame_async
(ai_model/inference_engine.py, lines 540-549): put_nowait appends the frame
when the queue has room and raises queue.Full otherwise; the handler of that
exception returns False and leaves the queue unchanged, so the frame is
dropped.  Modelled as a pure function from the queue contents (oldest first)
to the accepted flag and the new queue contents. -/
def submit_frame_async {α : Type} (q : List α) (frame : α) : Bool × List α :=
  if q.length < processing_queue_maxsize then (true, q ++ [frame]) else (false, q)

/-- Truncation toward zero, the behaviour of the Python int() conversion on a
finite float. -/
def py_int_trunc (q : ℚ) : ℤ :=
  if 0 ≤ q then ⌊q⌋ else -⌊-q⌋

/-- People count of FixedAIPredictor._enhanced_fallback_from_array
(backend/api/ai_predictor_fixed.py, lines 410-412): a density factor from the
resolution, a brightness factor from the average brightness, multiplied by a
uniform random sample u (drawn from the interval 1.5 to 4.0, modelled here as
an input), truncated to an int, floored at 1 and capped at 25.  The file-based
variant _enhanced_fallback_analysis (lines 318-323) computes the same value. -/
def enhanced_fallback_people_count (w h : Nat) (avg_brightness u : ℚ) : ℤ :=
  let density_factor := min ((w : ℚ) * (h : ℚ) / 100000) 2
  let brightness_factor := max (3/10) ((255 - avg_brightness) / 255)
  min (max 1 (py_int_trunc (density_factor * brightness_factor * u))) 25

/-- Single person detection, from ai_model/improved_people_detector.py
(dataclass Detection): a bounding box given as x, y, width, height together
with a confidence.  Coordinates are pixel integers. -/
structure Detection where
  x : ℤ
  y : ℤ
  w : ℤ
  h : ℤ
  conf : ℚ
deriving DecidableEq, Repr

/-- Axis-aligned rectangle in the OpenCV cv::Rect convention: origin x, y and
extents w, h (so it spans x to x+w and y to y+h). -/
structure Rect where
  x : ℚ
  y : ℚ
  w : ℚ
  h : ℚ
deriving DecidableEq, Repr

/-- Intersection-over-union of two cv::Rect rectangles, as computed by
OpenCV's rectOverlap (1 minus jaccardDistance): the intersection area over the
union area, with degenerate rectangles of non-positive total area treated as
fully overlapping. -/
def rect_iou (a b : Rect) : ℚ :=
  let iw := max 0 (min (a.x + a.w) (b.x + b.w) - max a.x b.x)
  let ih := max 0 (min (a.y + a.h) (b.y + b.h) - max a.y b.y)
  let inter := iw * ih
  let area_a := a.w * a.h
  let area_b := b.w * b.h
  if area_a + area_b ≤ 0 then 1 else inter / (area_a + area_b - inter)

/-- Rectangle actually occupied by a detection: its bbox read in the x, y,
width, height convention it was produced in. -/
def det_rect (d : Detection) : Rect :=
  { x := (d.x : ℚ), y := (d.y : ℚ), w := (d.w : ℚ), h := (d.h : ℚ) }

/-- Box list built by ImprovedPeopleDetector._apply_nms before calling
cv2.dnn.NMSBoxes: each detection bbox (x, y, w, h) is converted to the list
[x, y, x + w, y + h] (lines 307-309).  NMSBoxes, however, takes its boxes in
the cv::Rect convention (x, y, width, height), so this quadruple is read back
as a rectangle at (x, y) of width x + w and height y + h. -/
def nms_box (d : Detection) : Rect :=
  { x := (d.x : ℚ), y := (d.y : ℚ), w := ((d.x + d.w : ℤ) : ℚ), h := ((d.y + d.h : ℤ) : ℚ) }

/-- Confidence threshold default from ImprovedPeopleDetector._get_default_config. -/
def detector_confidence_threshold : ℚ := 1/2

/-- NMS IoU threshold default from ImprovedPeopleDetector._get_default_config. -/
def detector_nms_threshold : ℚ := 2/5

/-- Geometric and confidence filter of ImprovedPeopleDetector._filter_detections
(lines 263-296) for an image of height img_h and width img_w: keep a detection
unless its confidence is below the threshold, its box is outside the min/max
size bounds, it comes within 5 pixels of the image border, or its
height-to-width ratio is below 1.2. -/
def filter_detections (dets : List Detection) (img_h img_w : Nat) : List Detection :=
  dets.filter fun d =>
    ¬ (d.conf < detector_confidence_threshold) ∧
    ¬ (d.w < 30 ∨ d.h < 50) ∧
    ¬ (d.w > 300 ∨ d.h > 400) ∧
    ¬ (d.x < 5 ∨ d.y < 5 ∨ d.x + d.w > (img_w : ℤ) - 5 ∨ d.y + d.h > (img_h : ℤ) - 5) ∧
    ¬ ((d.h : ℚ) / (d.w : ℚ) < 6/5)

/-- Greedy suppression loop of cv2.dnn.NMSBoxes (OpenCV NMSFast_): walk the
candidates in descending-score order and keep a candidate exactly when its
overlap with every already-kept box is at most the NMS threshold. -/
def nms_select (thr : ℚ) : List Detection → List Detection → List Detection
  | kept, [] => kept.reverse
  | kept, d :: rest =>
      if ∀ k ∈ kept, rect_iou (nms_box d) (nms_box k) ≤ thr then
        nms_select thr (d :: kept) rest
      else
        nms_select thr kept rest

/-- Descending-by-confidence comparison used to order NMS candidates
(OpenCV sorts score/index pairs with a stable sort on descending score). -/
def conf_ge (d e : Detection) : Prop := e.conf ≤ d.conf

instance : DecidableRel conf_ge := fun d e => inferInstanceAs (Decidable (e.conf ≤ d.conf))

/-- NMS stage of ImprovedPeopleDetector._apply_nms (lines 298-328): lists of
length at most one are returned unchanged; otherwise the boxes and scores are
handed to cv2.dnn.NMSBoxes with the configured confidence and NMS thresholds.
NMSBoxes drops candidates whose score is not strictly above the score
threshold, sorts the rest by descending score and runs greedy suppression on
the (misinterpreted, see nms_box) rectangles; the surviving detections are
returned in that order. -/
def apply_nms (dets : List Detection) : List Detection :=
  if dets.length ≤ 1 then dets
  else
    nms_select detector_nms_threshold []
      (List.insertionSort conf_ge
        (dets.filter fun d => detector_confidence_threshold < d.conf))

/-- Grayscale frames and RGB frames are row-major lists of rows. -/
abbrev GrayFrame := List (List ℚ)

/-- Grayscale frames and RGB frames are row-major lists of rows. -/
abbrev RgbFrame := List (List (ℚ × ℚ × ℚ))

/-- Strided slicing arr[::s]: the elements whose index is a multiple of s. -/
def every_nth {α : Type} (s : Nat) (l : List α) : List α :=
  (l.enum.filter fun p => p.1 % s == 0).map Prod.snd

/-- Luma grayscale conversion used by FixedAIPredictor._compute_motion_score
when OpenCV is unavailable: 0.2989 R + 0.5870 G + 0.1140 B. -/
def luma (px : ℚ × ℚ × ℚ) : ℚ :=
  (2989/10000) * px.1 + (5870/10000) * px.2.1 + (1140/10000) * px.2.2

/-- Height and width of a row-major frame, as numpy shape would report them for
a rectangular array. -/
def frame_dims (g : GrayFrame) : Nat × Nat :=
  (g.length, (g.head?.getD []).length)

/-- Mean absolute difference of two same-shape grayscale frames:
np.mean(np.abs(gray - prev)), the total absolute difference divided by the
number of entries of the frame. -/
def mean_abs_diff (p g : GrayFrame) : ℚ :=
  let total := ((p.zip g).map fun rr => ((rr.1.zip rr.2).map fun ab => |ab.1 - ab.2|).sum).sum
  total / (((frame_dims g).1 : ℚ) * ((frame_dims g).2 : ℚ))

/-- Downsampled grayscale image computed by FixedAIPredictor._compute_motion_score:
the frame is strided by scale = max(1, int(max(h, w) / 160)) in both axes and
converted to grayscale. -/
def downsampled_gray (rgb : RgbFrame) : GrayFrame :=
  let h := rgb.length
  let w := (rgb.head?.getD []).length
  let scale := max 1 (max h w / 160)
  ((every_nth scale rgb).map (every_nth scale)).map (List.map luma)

/-- Motion state of FixedAIPredictor: the stored previous downsampled grayscale
frame (attribute _prev_small_gray), None before the first call.  There is one
such attribute per predictor instance; it carries no stream key. -/
structure MotionState where
  prev : Option GrayFrame
deriving DecidableEq, Repr

/-- Motion scorer of FixedAIPredictor._compute_motion_score
(backend/api/ai_predictor_fixed.py, lines 138-172), in its frame-differencing
branch (OpenCV unavailable; the OpenCV branch replaces the differencing with
Farneback optical flow): downsample and grayscale the frame; if a previous
frame of the same shape is stored, score the mean absolute pixel difference,
else score 0; store the current frame as previous; normalize by the empirical
constant 25 and clamp to the unit interval. -/
def compute_motion_score (st : MotionState) (rgb : RgbFrame) : ℚ × MotionState :=
  let gray := downsampled_gray rgb
  let score :=
    match st.prev with
    | some p => if frame_dims p = frame_dims gray then mean_abs_diff p gray else 0
    | none => 0
  let norm := score / 25
  (max 0 (min 1 norm), { prev := some gray })

/-- Run of the motion scorer over a stream-tagged trace of frames.  The tag
records which logical stream each frame belongs to; the scorer itself receives
no such tag (the code keys nothing by stream), which this run makes explicit
by threading the single shared state through all calls. -/
def run_motion (st : MotionState) : List (Nat × RgbFrame) → List (Nat × ℚ)
  | [] => []
  | (sid, f) :: rest =>
      let r := compute_motion_score st f
      (sid, r.1) :: run_motion r.2 rest

/-- Calibration state of FixedAIPredictor: the running mean and variance
attributes _ema_mean and _ema_var.  Like the motion state, the predictor holds
exactly one copy, with no stream key. -/
structure CalState where
  ema_mean : ℚ
  ema_var : ℚ
deriving DecidableEq, Repr

/-- Initial calibration state from FixedAIPredictor.__init__:
_ema_mean = 0.5, _ema_var = 0.05. -/
def initial_cal_state : CalState := { ema_mean := 1/2, ema_var := 1/20 }

/-- State update of FixedAIPredictor._update_calibration (lines 174-188):
delta is the deviation of the risk from the previous mean; the mean is an EMA
with alpha = 0.1 and the variance an EMA of delta squared with beta = 0.1. -/
def update_calibration_state (st : CalState) (risk : ℚ) : CalState :=
  let delta := risk - st.ema_mean
  { ema_mean := (1 - 1/10) * st.ema_mean + (1/10) * risk,
    ema_var := (1 - 1/10) * st.ema_var + (1/10) * (delta * delta) }

/-- Value returned by FixedAIPredictor._update_calibration: the z-score of the
risk against the updated statistics (with the denominator floored at 1e-6),
mapped through the logistic function 1 / (1 + e^(-z)) with the code's constant
e = 2.718281828, clamped to the unit interval. -/
noncomputable def calibrated_value (st : CalState) (risk : ℚ) : ℝ :=
  let st1 := update_calibration_state st risk
  let denom : ℝ := max (1/1000000) (Real.sqrt (st1.ema_var : ℚ))
  let z : ℝ := ((risk - st1.ema_mean : ℚ) : ℝ) / denom
  max 0 (min 1 (1 / (1 + (2.718281828 : ℝ) ^ (-z))))

/-- Calibrated scores produced by feeding a finite sequence of fused-risk
values through _update_calibration, starting from a given state. -/
noncomputable def calibrated_scores (st : CalState) : List ℚ → List ℝ
  | [] => []
  | risk :: rest =>
      calibrated_value st risk :: calibrated_scores (update_calibration_state st risk) rest

/-- Fused risk computed by FixedAIPredictor.predict_crowd
(backend/api/ai_predictor_fixed.py, lines 479-481): raw_score caps
people_count / 12 at 1, the base risk blends raw_score with the base
prediction's clamped confidence, and the motion score is fused in with weights
0.7 and 0.3, clamped to the unit interval. -/
def fused_risk (people_count : Nat) (conf motion : ℚ) : ℚ :=
  let raw_score := min 1 ((people_count : ℚ) / 12)
  let base_risk := (1/2) * raw_score + (1/2) * max 0 (min 1 conf) * raw_score
  max 0 (min 1 ((7/10) * base_risk + (3/10) * motion))

/-- Modelled from the spec (claim C3 wording), for comparison with fused_risk:
the raw risk score 0.5 min(1, people_count/12)
plus 0.5 max(p_stampede, density_norm) min(1, people_count/12), fused with the
motion score by 0.7 raw + 0.3 motion and clamped to the unit interval. -/
def risk_score_of_claim (people_count : Nat) (p_stampede density_norm motion : ℚ) : ℚ :=
  let raw := min 1 ((people_count : ℚ) / 12)
  let raw_risk := (1/2) * raw + (1/2) * max p_stampede density_norm * raw
  max 0 (min 1 ((7/10) * raw_risk + (3/10) * motion))

/-- Mutable per-predictor state touched by FixedAIPredictor.predict_crowd:
the single motion state and the single calibration state. -/
structure PredictorState where
  motion : MotionState
  cal : CalState
deriving DecidableEq, Repr

/-- Initial predictor state from FixedAIPredictor.__init__. -/
def initial_predictor_state : PredictorState :=
  { motion := { prev := none }, cal := initial_cal_state }

/-- State effect of one FixedAIPredictor.predict_crowd call on a frame
attributed to stream sid, with people_count and confidence taken from the base
prediction: the motion state is updated by _compute_motion_score and the
calibration state by _update_calibration on the fused risk.  The stream
identifier is accepted here only to mirror the claims' stream-scoped reading;
the code ignores it, as the definition shows. -/
def predict_crowd_state (sid : Nat) (rgb : RgbFrame)
    (people_count : Nat) (conf : ℚ) (st : PredictorState) : PredictorState :=
  let r := compute_motion_score st.motion rgb
  { motion := r.2, cal := update_calibration_state st.cal (fused_risk people_count conf r.1) }

/-- Calibration-and-motion state that a frame of stream sid would read: the
code holds one shared PredictorState, so every stream reads the same record. -/
def state_read_by_stream (sid : Nat) (st : PredictorState) : PredictorState := st

/-- Frame payload reaching FixedAIPredictor.predict_crowd, abstracted by its
decode outcome: a payload either decodes to an RGB pixel array or is malformed
(base64/PIL decoding fails). -/
inductive FramePayload where
  | valid (frame : RgbFrame)
  | malformed
deriving DecidableEq, Repr

/-- Decoder FixedAIPredictor._decode_base64_to_array, abstracted to its
outcome: None exactly on malformed payloads. -/
def decode_payload : FramePayload → Option RgbFrame
  | .valid f => some f
  | .malformed => none

/-- Result dictionary shape of FixedAIPredictor.predict_crowd as consumed by
the analyze_frame view; has_error_key records whether the dictionary carries an
error entry (the view checks for one). -/
structure CrowdResult where
  crowd_detected : Bool
  confidence_score : ℚ
  people_count : Nat
  is_stampede_risk : Bool
  fallback_mode : Bool
  has_error_key : Bool
deriving DecidableEq, Repr

/-- Conservative result returned by FixedAIPredictor.predict_crowd when the
frame fails to decode (backend/api/ai_predictor_fixed.py, lines 451-461): a
fixed fallback dictionary with no error key; the detection/inference pipeline
is not invoked. -/
def decode_failure_fallback : CrowdResult :=
  { crowd_detected := false, confidence_score := 1/2, people_count := 1,
    is_stampede_risk := false, fallback_mode := true, has_error_key := false }

/-- Control flow of FixedAIPredictor.predict_crowd around decoding: if the
payload fails to decode the conservative fallback is returned at once,
otherwise the prediction pipeline runs on the decoded frame.  The boolean
records whether the pipeline was invoked. -/
def predict_crowd_result (pipeline : RgbFrame → CrowdResult)
    (payload : FramePayload) : CrowdResult × Bool :=
  match decode_payload payload with
  | none => (decode_failure_fallback, false)
  | some f => (pipeline f, true)

/-- Request reaching the analyze_frame view (backend/api/views.py, lines
363-411): optional stream id and frame payload, and whether the named stream
exists for the requesting user. -/
structure FrameRequest where
  stream_id : Option Nat
  frame_data : Option FramePayload
  stream_exists : Bool
deriving Repr

/-- Response of the analyze_frame view, reduced to its HTTP status code and
the analysis it returns on success: 400 when stream_id or frame_data is
missing, 404 when the stream is unknown, 500 when the analysis dictionary
carries an error key, and otherwise the default 200 with the analysis —
including when the analysis is the decode-failure fallback. -/
def analyze_frame (pipeline : RgbFrame → CrowdResult) (req : FrameRequest) :
    Nat × Option CrowdResult :=
  match req.stream_id, req.frame_data with
  | none, _ => (400, none)
  | some _, none => (400, none)
  | some _, some payload =>
      if req.stream_exists then
        let analysis := (predict_crowd_result pipeline payload).1
        if analysis.has_error_key then (500, none) else (200, some analysis)
      else (404, none)

/-- Concrete 2 by 2 all-black RGB frame used as a test fixture. -/
def test_frame_dark : RgbFrame :=
  [[(0, 0, 0), (0, 0, 0)], [(0, 0, 0), (0, 0, 0)]]

/-- Concrete 2 by 2 all-white RGB frame used as a test fixture. -/
def test_frame_bright : RgbFrame :=
  [[(255, 255, 255), (255, 255, 255)], [(255, 255, 255), (255, 255, 255)]]

/-- Concrete detection fixture: a 40 by 80 person-shaped box at (200, 10) with
confidence 0.8 (the confidence _detect_faces assigns). -/
def det_a : Detection := { x := 200, y := 10, w := 40, h := 80, conf := 4/5 }

/-- Concrete detection fixture: a 40 by 80 person-shaped box at (250, 10) with
confidence 0.6 (the confidence _detect_bodies assigns), disjoint from det_a. -/
def det_b : Detection := { x := 250, y := 10, w := 40, h := 80, conf := 3/5 }

end CrowdControl

namespace CrowdControl

/-- Specification claim C1: the risk evaluator computes exactly the
most-severe-first cascade stated in the spec, as a pure function of the
classifier probabilities, people count and density. -/
theorem determine_risk_level_matches_claim (p_normal p_crowded p_stampede : ℚ)
    (people_count : Nat) (crowd_density : ℚ) :
    determine_risk_level p_normal p_crowded p_stampede people_count crowd_density =
      risk_level_of_claim p_normal p_crowded p_stampede people_count crowd_density := rfl

/-- Counterexample to claim C2 as stated: a frame whose fused detection set has
25 boxes and whose classifier output has p_stampede = 0.9 does not yield
STAMPEDE_IMMINENT end to end; _recalculate_risk_with_accurate_count overrides
the cascade (which by itself would report STAMPEDE_IMMINENT here) and maps any
count up to 25 to high_risk. -/
theorem scenario_b_returns_high_risk_not_stampede :
    (production_predict_crowd (1/20) (1/20) (9/10) 25 480 640 25).risk_level =
      RiskLevel.high_risk ∧
    determine_risk_level (1/20) (1/20) (9/10) 25
        (calculate_crowd_density 25 (480 * 640)) = RiskLevel.stampede_imminent ∧
    RiskLevel.high_risk ≠ RiskLevel.stampede_imminent := by
  refine ⟨?_, ?_, by decide⟩
  · norm_num [production_predict_crowd, recalculate_risk_with_accurate_count,
      convert_result_to_dict, determine_risk_level, stampede_min_people]
  · norm_num [determine_risk_level, stampede_min_people]

/-- Claim C2 as amended: for any classifier output, a fused count between 16
and 25 makes the end-to-end analysis return risk_level high_risk with
is_stampede_risk true, so the views still create an alert (their condition is
keyed on is_stampede_risk, for any value of the smoothed risk flag);
STAMPEDE_IMMINENT would require a fused count above 25. -/
theorem recalculated_risk_for_large_fused_count (p_normal p_crowded p_stampede : ℚ)
    (engine_people h w count : Nat) (smoothed : Bool) (h16 : 15 < count) (h25 : count ≤ 25) :
    (production_predict_crowd p_normal p_crowded p_stampede engine_people h w count).risk_level =
      RiskLevel.high_risk ∧
    (production_predict_crowd p_normal p_crowded p_stampede engine_people h w count).is_stampede_risk =
      true ∧
    alert_created
      (production_predict_crowd p_normal p_crowded p_stampede engine_people h w count).is_stampede_risk
      smoothed = true := by
  have h0 : ¬ count = 0 := by omega
  have h5 : ¬ count ≤ 5 := by omega
  have h15 : ¬ count ≤ 15 := by omega
  unfold production_predict_crowd recalculate_risk_with_accurate_count
  simp [h0, h5, h15, h25, alert_created]

/-- Witness for recalculated_risk_for_large_fused_count at count 25, the
scenario-B classifier output and a clear smoothed flag. -/
theorem recalculated_risk_for_large_fused_count_witness :
    15 < 25 ∧ 25 ≤ 25 ∧
    ((production_predict_crowd (1/20) (1/20) (9/10) 25 480 640 25).risk_level =
        RiskLevel.high_risk ∧
      (production_predict_crowd (1/20) (1/20) (9/10) 25 480 640 25).is_stampede_risk = true ∧
      alert_created
        (production_predict_crowd (1/20) (1/20) (9/10) 25 480 640 25).is_stampede_risk
        false = true) :=
  ⟨by decide, by decide,
    recalculated_risk_for_large_fused_count (1/20) (1/20) (9/10) 25 480 640 25 false
      (by decide) (by decide)⟩

/-- Counterexample to claim C3 as stated: in the production path the weight on
the second term of the raw risk score is the prediction's confidence (the
maximum class probability), not max(p_stampede, density_norm).  With classifier
output (0.9, 0.05, 0.05), 12 people, a 1000 by 1200 frame (density 0.1) and no
motion, the code reports a fused risk of 0.665 while the claimed formula gives
0.385. -/
theorem fused_risk_differs_from_claim_formula :
    fused_risk 12 (result_confidence (9/10) (1/20) (1/20)) 0 = 133/200 ∧
    risk_score_of_claim 12 (1/20) (calculate_crowd_density 12 (1000 * 1200)) 0 = 77/200 ∧
    (133/200 : ℚ) ≠ 77/200 := by
  refine ⟨?_, ?_, by norm_num⟩
  · norm_num [fused_risk, result_confidence, min_def, max_def]
  · norm_num [risk_score_of_claim, calculate_crowd_density, min_def, max_def]

/-- Claim C3 as amended: the raw risk score blends min(1, people_count/12) with
the base prediction's confidence clamped to the unit interval — equivalently
the raw score times (1 + clamped confidence) over 2 — and the reported risk is
0.7 times that plus 0.3 times the motion score, clamped to the unit interval;
the result always lies in the unit interval. -/
theorem fused_risk_closed_form (people_count : Nat) (conf motion : ℚ) :
    fused_risk people_count conf motion =
      max 0 (min 1 ((7/10) * (min 1 ((people_count : ℚ) / 12) * (1 + max 0 (min 1 conf)) / 2) +
        (3/10) * motion)) ∧
    0 ≤ fused_risk people_count conf motion ∧ fused_risk people_count conf motion ≤ 1 := by
  refine ⟨?_, ?_, ?_⟩
  · simp only [fused_risk]
    congr 2
    ring
  · exact le_max_left 0 _
  · exact max_le (by norm_num) (min_le_left 1 _)

/-- Absolute differences of a list zipped with itself sum to zero. -/
theorem sum_abs_diff_self (l : List ℚ) :
    ((l.zip l).map fun ab => |ab.1 - ab.2|).sum = 0 := by
  induction l with
  | nil => simp
  | cons a l ih => simp [ih]

/-- Mean absolute difference of a frame with itself is zero. -/
theorem mean_abs_diff_self (g : GrayFrame) : mean_abs_diff g g = 0 := by
  unfold mean_abs_diff
  have h : ((g.zip g).map fun rr => ((rr.1.zip rr.2).map fun ab => |ab.1 - ab.2|).sum).sum = 0 := by
    induction g with
    | nil => simp
    | cons r g ih => simp [ih, sum_abs_diff_self]
  simp [h]

/-- Unit-interval bound for one calibrated value: the code clamps the logistic
output. -/
theorem calibrated_value_mem_unit (st : CalState) (risk : ℚ) :
    0 ≤ calibrated_value st risk ∧ calibrated_value st risk ≤ 1 := by
  unfold calibrated_value
  exact ⟨le_max_left 0 _, max_le zero_le_one (min_le_left 1 _)⟩

/-- Unit-interval bound for every calibrated score of a run, from any state. -/
theorem calibrated_scores_mem_unit (l : List ℚ) (st : CalState) :
    ∀ c ∈ calibrated_scores st l, 0 ≤ c ∧ c ≤ 1 := by
  induction l generalizing st with
  | nil => simp [calibrated_scores]
  | cons r rest ih =>
      intro c hc
      rw [calibrated_scores] at hc
      rcases List.mem_cons.mp hc with h | h
      · subst h; exact calibrated_value_mem_unit st r
      · exact ih (update_calibration_state st r) c h

/-- Specification claim C4: the online calibrator updates its mean by an EMA
with alpha 0.1 and its variance by an EMA of the squared deviation with beta
0.1, maps the z-score through a logistic function (see calibrated_value), and
every calibrated score returned over any finite sequence of fused-risk inputs
from the unit interval lies in the unit interval. -/
theorem online_calibrator_ema_and_bounded (st : CalState) (risk : ℚ) (l : List ℚ)
    (hl : ∀ x ∈ l, 0 ≤ x ∧ x ≤ 1) :
    (update_calibration_state st risk).ema_mean = (1 - 1/10) * st.ema_mean + (1/10) * risk ∧
    (update_calibration_state st risk).ema_var =
      (1 - 1/10) * st.ema_var + (1/10) * ((risk - st.ema_mean) * (risk - st.ema_mean)) ∧
    ∀ c ∈ calibrated_scores initial_cal_state l, 0 ≤ c ∧ c ≤ 1 :=
  ⟨rfl, rfl, calibrated_scores_mem_unit l initial_cal_state⟩

/-- Witness for online_calibrator_ema_and_bounded at the initial state, risk
0.5 and the one-element input sequence 0.5. -/
theorem online_calibrator_ema_and_bounded_witness :
    (∀ x ∈ [(1 : ℚ)/2], 0 ≤ x ∧ x ≤ 1) ∧
    ((update_calibration_state initial_cal_state (1/2)).ema_mean =
        (1 - 1/10) * initial_cal_state.ema_mean + (1/10) * (1/2) ∧
      (update_calibration_state initial_cal_state (1/2)).ema_var =
        (1 - 1/10) * initial_cal_state.ema_var +
          (1/10) * ((1/2 - initial_cal_state.ema_mean) * (1/2 - initial_cal_state.ema_mean)) ∧
      ∀ c ∈ calibrated_scores initial_cal_state [(1 : ℚ)/2], 0 ≤ c ∧ c ≤ 1) :=
  ⟨by intro x hx; rw [List.mem_singleton] at hx; subst hx; norm_num,
    online_calibrator_ema_and_bounded initial_cal_state (1/2) [(1 : ℚ)/2]
      (by intro x hx; rw [List.mem_singleton] at hx; subst hx; norm_num)⟩

/-- Counterexample to claim C5 as stated: processing a frame attributed to
stream 0 changes the calibration and motion state that stream 1 subsequently
reads, because FixedAIPredictor holds a single _ema_mean / _ema_var /
_prev_small_gray with no stream key. -/
theorem calibration_state_not_stream_keyed :
    state_read_by_stream 1
        (predict_crowd_state 0 test_frame_dark 12 (9/10) initial_predictor_state) ≠
      state_read_by_stream 1 initial_predictor_state := by
  intro h
  have hm : (state_read_by_stream 1
        (predict_crowd_state 0 test_frame_dark 12 (9/10) initial_predictor_state)).motion.prev =
      (state_read_by_stream 1 initial_predictor_state).motion.prev := by rw [h]
  simp [state_read_by_stream, predict_crowd_state, compute_motion_score,
    initial_predictor_state] at hm

/-- Claim C5 as amended: the per-predictor state is shared, not per stream —
the state mutation performed for a frame is independent of the stream the
frame is attributed to, and afterwards every stream reads the same mutated
record (motion state advanced by _compute_motion_score, calibration state
advanced by _update_calibration on the fused risk). -/
theorem predictor_state_shared_across_streams (s t sid : Nat) (rgb : RgbFrame)
    (people_count : Nat) (conf : ℚ) (st : PredictorState) :
    predict_crowd_state s rgb people_count conf st =
      predict_crowd_state t rgb people_count conf st ∧
    state_read_by_stream sid (predict_crowd_state s rgb people_count conf st) =
      { motion := (compute_motion_score st.motion rgb).2,
        cal := update_calibration_state st.cal
          (fused_risk people_count conf (compute_motion_score st.motion rgb).1) } :=
  ⟨rfl, rfl⟩

/-- Bug witness for claim C6: det_a and det_b survive the geometric and
confidence filter for a 480 by 640 image and are disjoint (their true IoU is
0, far below the NMS threshold 0.4), yet _apply_nms suppresses the
lower-confidence one.  The cause: _apply_nms converts each bbox to the corner
quadruple [x, y, x + w, y + h] but cv2.dnn.NMSBoxes reads its boxes in the
(x, y, width, height) convention, so the misread rectangles overlap with IoU
19/34, above the threshold. -/
theorem nms_false_suppression_on_disjoint_boxes :
    filter_detections [det_a, det_b] 480 640 = [det_a, det_b] ∧
    rect_iou (det_rect det_a) (det_rect det_b) = 0 ∧
    rect_iou (nms_box det_a) (nms_box det_b) = 19/34 ∧
    apply_nms [det_a, det_b] = [det_a] := by
  refine ⟨?_, ?_, ?_, ?_⟩
  · norm_num [filter_detections, det_a, det_b, detector_confidence_threshold,
      List.filter_cons, min_def, max_def]
  · norm_num [rect_iou, det_rect, det_a, det_b, min_def, max_def]
  · norm_num [rect_iou, nms_box, det_a, det_b, min_def, max_def]
  · norm_num [apply_nms, nms_select, List.insertionSort, List.orderedInsert,
      conf_ge, det_a, det_b, detector_confidence_threshold, detector_nms_threshold,
      List.filter_cons, rect_iou, nms_box, min_def, max_def]

/-- Stride-one slicing is the identity. -/
theorem every_nth_one {α : Type} (l : List α) : every_nth 1 l = l := by
  unfold every_nth
  rw [List.filter_eq_self.mpr fun a _ => by simp [Nat.mod_one]]
  exact List.enum_map_snd l

/-- Counterexample to claim C7 as stated: the motion state is not stream
scoped, so the first motion-score call of a stream need not return 0.  After
stream 0 supplies an all-black frame, the first call for stream 1 with an
all-white frame of the same shape returns 1. -/
theorem motion_first_call_not_stream_scoped :
    run_motion { prev := none } [(0, test_frame_dark), (1, test_frame_bright)] =
      [(0, 0), (1, 1)] ∧ (1 : ℚ) ≠ 0 := by
  refine ⟨?_, by norm_num⟩
  norm_num [run_motion, compute_motion_score, downsampled_gray, every_nth_one,
    test_frame_dark, test_frame_bright, luma, frame_dims, mean_abs_diff,
    min_def, max_def, abs_of_nonneg (show (0 : ℚ) ≤ 509949/2000 by norm_num)]

/-- Claim C7 as amended: per predictor instance (not per stream), the first
motion-score call returns exactly 0 and stores the downsampled grayscale
frame; a second call with an identical frame returns exactly 0; and every
returned motion score lies in the unit interval.  The nonemptiness hypothesis
keeps the statement within the regime where the code's np.mean is defined. -/
theorem motion_score_fresh_identical_and_bounded (rgb : RgbFrame) (st : MotionState)
    (hne : 0 < (frame_dims (downsampled_gray rgb)).1 * (frame_dims (downsampled_gray rgb)).2) :
    compute_motion_score { prev := none } rgb = (0, { prev := some (downsampled_gray rgb) }) ∧
    (compute_motion_score (compute_motion_score { prev := none } rgb).2 rgb).1 = 0 ∧
    0 ≤ (compute_motion_score st rgb).1 ∧ (compute_motion_score st rgb).1 ≤ 1 := by
  refine ⟨?_, ?_, ?_, ?_⟩
  · unfold compute_motion_score
    norm_num
  · unfold compute_motion_score
    simp [mean_abs_diff_self]
  · unfold compute_motion_score
    exact le_max_left 0 _
  · unfold compute_motion_score
    exact max_le (by norm_num) (min_le_left 1 _)

/-- Witness for motion_score_fresh_identical_and_bounded at the all-black 2 by
2 test frame. -/
theorem motion_score_fresh_identical_and_bounded_witness :
    0 < (frame_dims (downsampled_gray test_frame_dark)).1 *
        (frame_dims (downsampled_gray test_frame_dark)).2 ∧
    (compute_motion_score { prev := none } test_frame_dark =
        (0, { prev := some (downsampled_gray test_frame_dark) }) ∧
      (compute_motion_score
          (compute_motion_score { prev := none } test_frame_dark).2 test_frame_dark).1 = 0 ∧
      0 ≤ (compute_motion_score { prev := none } test_frame_dark).1 ∧
      (compute_motion_score { prev := none } test_frame_dark).1 ≤ 1) :=
  ⟨by decide,
    motion_score_fresh_identical_and_bounded test_frame_dark { prev := none } (by decide)⟩

/-- Specification claim C8: submitting a frame while the bounded queue (depth
10) is full returns false and leaves the queue unchanged — the frame is
dropped, nothing blocks or raises (the embedded function is total) — and
submitting while the queue has room returns true and enqueues the frame. -/
theorem submit_frame_async_backpressure {α : Type} (q : List α) (frame : α) :
    (processing_queue_maxsize ≤ q.length → submit_frame_async q frame = (false, q)) ∧
    (q.length < processing_queue_maxsize → submit_frame_async q frame = (true, q ++ [frame])) := by
  constructor
  · intro h
    simp [submit_frame_async, Nat.not_lt.mpr h]
  · intro h
    simp [submit_frame_async, h]

/-- Witness for submit_frame_async_backpressure on a full queue of ten frames
and on the empty queue. -/
theorem submit_frame_async_backpressure_witness :
    (processing_queue_maxsize ≤ (List.replicate 10 (0 : Nat)).length ∧
      submit_frame_async (List.replicate 10 (0 : Nat)) 7 = (false, List.replicate 10 0)) ∧
    (([] : List Nat).length < processing_queue_maxsize ∧
      submit_frame_async ([] : List Nat) 7 = (true, [7])) :=
  ⟨⟨by decide, (submit_frame_async_backpressure (List.replicate 10 (0 : Nat)) 7).1 (by decide)⟩,
    ⟨by decide, (submit_frame_async_backpressure ([] : List Nat) 7).2 (by decide)⟩⟩

/-- Counterexample to claim C9 as stated: a malformed frame payload does not
produce a 4xx-equivalent response; predict_crowd returns a conservative
fallback dictionary with no error key, and the analyze_frame view returns it
with the default 200 status. -/
theorem analyze_frame_decode_failure_not_4xx :
    (analyze_frame (fun _ => decode_failure_fallback) ⟨some 1, some .malformed, true⟩).1 = 200 ∧
    ¬ (400 ≤ 200 ∧ 200 < 500) := by
  decide

/-- Claim C9 as amended: on a decode failure predict_crowd returns the fixed
conservative fallback result without invoking the inference pipeline, and the
analyze_frame view returns it as a 200 success (a 4xx is produced only for a
missing stream_id or frame_data); the caller always receives a contract-shaped
result — the embedded functions are total — never a raw exception. -/
theorem analyze_frame_decode_failure_fallback (pipeline : RgbFrame → CrowdResult)
    (sid : Nat) (payload : FramePayload) (ex : Bool)
    (hm : decode_payload payload = none) :
    predict_crowd_result pipeline payload = (decode_failure_fallback, false) ∧
    analyze_frame pipeline ⟨some sid, some payload, true⟩ =
      (200, some decode_failure_fallback) ∧
    analyze_frame pipeline ⟨none, some payload, ex⟩ = (400, none) := by
  have hp : predict_crowd_result pipeline payload = (decode_failure_fallback, false) := by
    unfold predict_crowd_result
    rw [hm]
  refine ⟨hp, ?_, rfl⟩
  unfold analyze_frame
  simp [hp, decode_failure_fallback]

/-- Witness for analyze_frame_decode_failure_fallback at a concrete malformed
payload. -/
theorem analyze_frame_decode_failure_fallback_witness :
    decode_payload .malformed = none ∧
    (predict_crowd_result (fun _ => decode_failure_fallback) .malformed =
        (decode_failure_fallback, false) ∧
      analyze_frame (fun _ => decode_failure_fallback) ⟨some 1, some .malformed, true⟩ =
        (200, some decode_failure_fallback) ∧
      analyze_frame (fun _ => decode_failure_fallback) ⟨none, some .malformed, false⟩ =
        (400, none)) :=
  ⟨rfl, analyze_frame_decode_failure_fallback (fun _ => decode_failure_fallback) 1
    .malformed false rfl⟩

/-- Specification claim C10: the degraded-mode people count derived from image
statistics always lies between 1 and 25 inclusive — in particular it is never
0, whatever the resolution, average brightness or random draw. -/
theorem enhanced_fallback_people_count_bounds (w h : Nat) (avg_brightness u : ℚ) :
    1 ≤ enhanced_fallback_people_count w h avg_brightness u ∧
    enhanced_fallback_people_count w h avg_brightness u ≤ 25 := by
  unfold enhanced_fallback_people_count
  exact ⟨le_min (le_max_left 1 _) (by norm_num), min_le_right _ 25⟩

end CrowdControl
